import Mathlib

/-!
Shallow embedding of `pkg/crc/preflight/preflight_checks_network_linux.go`.

Go functions that mutate host state are modelled as explicit state passing
over a filesystem value together with an environment of collaborator
outcomes (privileged write/remove, service reload, service status query,
executable lookup).  Each operation also records a trace of the external
primitives it invoked, so that frame conditions ("no mutating primitive is
called") are statable.
-/

namespace Crc

/-- Status value of a systemd unit.  Modelled from the spec:
the `states` package (`pkg/crc/systemd/states`) is not under `src/`;
the spec only distinguishes `Running` from every other state
(`ServiceStatus(name) -> RunningState | error`). -/
inductive SdState where
  | Running
  | Stopped
  | NotFound
  deriving DecidableEq, Repr

/-- Result of a service status query: either a state or an error message. -/
inductive SdStatusRes where
  | ok (s : SdState)
  | err (e : String)
  deriving DecidableEq, Repr

abbrev Path := String
abbrev Content := String
abbrev FileMode := Nat

/-- One file on the host: its byte content and its permission mode. -/
structure FileEntry where
  content : Content
  mode : FileMode
  deriving DecidableEq, Repr

/-- The host filesystem, as an association list from path to file entry. -/
abbrev FS := List (Path × FileEntry)

/-- Look up the file at a path (first match wins). -/
def FS.lookup (fs : FS) (p : Path) : Option FileEntry :=
  match fs with
  | [] => none
  | (q, e) :: rest => if q = p then some e else FS.lookup rest p

/-- Delete every entry at a path. -/
def FS.removeAll (fs : FS) (p : Path) : FS :=
  match fs with
  | [] => []
  | (q, e) :: rest => if q = p then FS.removeAll rest p else (q, e) :: FS.removeAll rest p

/-- Create or overwrite the file at a path with given content and mode.
Modelled from the spec contract of `WriteFileAsPrivileged`. -/
def FS.write (fs : FS) (p : Path) (c : Content) (m : FileMode) : FS :=
  (p, ⟨c, m⟩) :: FS.removeAll fs p

/-- Environment of collaborator outcomes for one run: whether each external
primitive succeeds, and with which error message it fails.  `none` means the
primitive reports success. -/
structure Env where
  writeRes : Option String
  removeRes : Option String
  reloadRes : Option String
  nmcliFound : Bool
  svcStatus : String → SdStatusRes

/-- External primitive invocations, recorded for frame conditions. -/
inductive Event where
  | writeFile (path : Path) (content : Content) (mode : FileMode)
  | removeFile (path : Path)
  | reload (service : String)
  | statusQuery (service : String)
  | lookPath (name : String)
  | stat (path : Path)
  | contentCheck (path : Path)
  deriving DecidableEq, Repr

/-- Whether an event mutates host state (file write, file removal, or a
service reload, which changes the running service's configuration). -/
def Event.isMutating : Event → Bool
  | .writeFile _ _ _ => true
  | .removeFile _ => true
  | .reload _ => true
  | _ => false

/-- Result of running one operation: the Go `error` return (`none` = nil),
the filesystem afterwards, and the invoked external primitives in order. -/
structure Outcome where
  err : Option String
  fs : FS
  trace : List Event
  deriving DecidableEq, Repr

/-- Byte-for-byte comparison of a file with expected content.  Modelled from
the spec: `crcos.FileContentMatches` is not under `src/`; per the contract
`FileContentEquals(path, expectedBytes) -> ok | error`, the error
distinguishes "absent" from "present-but-mismatched". -/
def fileContentMatches (fs : FS) (path : Path) (expected : Content) : Option String :=
  match FS.lookup fs path with
  | none => some ("File not found: " ++ path)
  | some e =>
      if e.content = expected then none
      else some ("File has unexpected content: " ++ path)

/-- Embeds `fixNetworkManagerConfigFile`: write the file as root, then
reload NetworkManager; the first failing primitive's error is wrapped and
returned. -/
def fixNetworkManagerConfigFile (env : Env) (fs : FS)
    (path : Path) (content : Content) (perms : FileMode) : Outcome :=
  match env.writeRes with
  | some e =>
      { err := some ("Failed to write config file: " ++ path ++ ": " ++ e),
        fs := fs, trace := [Event.writeFile path content perms] }
  | none =>
      let fs1 := FS.write fs path content perms
      match env.reloadRes with
      | some e =>
          { err := some ("Failed to restart NetworkManager: " ++ e),
            fs := fs1, trace := [Event.writeFile path content perms, Event.reload "NetworkManager"] }
      | none =>
          { err := none,
            fs := fs1, trace := [Event.writeFile path content perms, Event.reload "NetworkManager"] }

/-- Embeds `checkNetworkManagerInstalled`: resolve `nmcli` on the search
path; on failure return a fixed error message. -/
def checkNetworkManagerInstalled (env : Env) (fs : FS) : Outcome :=
  if env.nmcliFound then
    { err := none, fs := fs, trace := [Event.lookPath "nmcli"] }
  else
    { err := some "NetworkManager cli nmcli was not found in path",
      fs := fs, trace := [Event.lookPath "nmcli"] }

/-- Embeds `removeNetworkManagerConfigFile`: if NetworkManager is not
installed, return nil immediately; otherwise, if the file exists, remove it
as root and reload NetworkManager, propagating either failure. -/
def removeNetworkManagerConfigFile (env : Env) (fs : FS) (path : Path) : Outcome :=
  let inst := checkNetworkManagerInstalled env fs
  match inst.err with
  | some _ => { err := none, fs := fs, trace := inst.trace }
  | none =>
      if (FS.lookup fs path).isSome then
        match env.removeRes with
        | some e =>
            { err := some ("Failed to remove NetworkManager configuration file: " ++ path ++ ": " ++ e),
              fs := fs, trace := inst.trace ++ [Event.stat path, Event.removeFile path] }
        | none =>
            let fs1 := FS.removeAll fs path
            match env.reloadRes with
            | some e =>
                { err := some ("Failed to restart NetworkManager: " ++ e),
                  fs := fs1,
                  trace := inst.trace ++ [Event.stat path, Event.removeFile path, Event.reload "NetworkManager"] }
            | none =>
                { err := none, fs := fs1,
                  trace := inst.trace ++ [Event.stat path, Event.removeFile path, Event.reload "NetworkManager"] }
      else
        { err := none, fs := fs, trace := inst.trace ++ [Event.stat path] }

def crcNetworkManagerRootPath : Path := "/etc/NetworkManager"

def crcDnsmasqConfigPath : Path := crcNetworkManagerRootPath ++ "/dnsmasq.d/crc.conf"

def crcDnsmasqConfig : Content :=
  "server=/apps-crc.testing/192.168.130.11\nserver=/crc.testing/192.168.130.11\n"

def crcNetworkManagerConfigPath : Path := crcNetworkManagerRootPath ++ "/conf.d/crc-nm-dnsmasq.conf"

def crcNetworkManagerConfig : Content := "[main]\ndns=dnsmasq\n"

def crcNetworkManagerDispatcherPath : Path :=
  crcNetworkManagerRootPath ++ "/dispatcher.d/pre-up.d/99-crc.sh"

def crcNetworkManagerDispatcherConfig : Content :=
  "#!/bin/sh\n" ++
  "# This is a NetworkManager dispatcher script to configure split DNS for\n" ++
  "# the 'crc' libvirt network.\n" ++
  "# The corresponding crc bridge is recreated each time the system reboots, so\n" ++
  "# it cannot be configured permanently through NetworkManager.\n" ++
  "# Changing DNS settings with nmcli requires the connection to go down/up,\n" ++
  "# so we directly make the change using resolvectl\n" ++
  "\n" ++
  "export LC_ALL=C\n" ++
  "\n" ++
  "if [ \"$1\" = crc ]; then\n" ++
  "        resolvectl domain \"$1\" ~testing\n" ++
  "        resolvectl dns \"$1\" 192.168.130.11\n" ++
  "        resolvectl default-route \"$1\" false\n" ++
  "fi\n" ++
  "\n" ++
  "exit 0\n"

/-- Embeds `checkCrcDnsmasqConfigFile`: compare the dnsmasq config file
with the expected content, propagating the comparison error. -/
def checkCrcDnsmasqConfigFile (_env : Env) (fs : FS) : Outcome :=
  { err := fileContentMatches fs crcDnsmasqConfigPath crcDnsmasqConfig,
    fs := fs, trace := [Event.contentCheck crcDnsmasqConfigPath] }

/-- Embeds `fixCrcDnsmasqConfigFile`: write the dnsmasq config with mode
0644 and reload NetworkManager. -/
def fixCrcDnsmasqConfigFile (env : Env) (fs : FS) : Outcome :=
  fixNetworkManagerConfigFile env fs crcDnsmasqConfigPath crcDnsmasqConfig 0o644

/-- Embeds `removeCrcDnsmasqConfigFile`. -/
def removeCrcDnsmasqConfigFile (env : Env) (fs : FS) : Outcome :=
  removeNetworkManagerConfigFile env fs crcDnsmasqConfigPath

/-- Embeds `checkCrcNetworkManagerConfig`. -/
def checkCrcNetworkManagerConfig (_env : Env) (fs : FS) : Outcome :=
  { err := fileContentMatches fs crcNetworkManagerConfigPath crcNetworkManagerConfig,
    fs := fs, trace := [Event.contentCheck crcNetworkManagerConfigPath] }

/-- Embeds `fixCrcNetworkManagerConfig`: write the NetworkManager config
with mode 0644 and reload NetworkManager. -/
def fixCrcNetworkManagerConfig (env : Env) (fs : FS) : Outcome :=
  fixNetworkManagerConfigFile env fs crcNetworkManagerConfigPath crcNetworkManagerConfig 0o644

/-- Embeds `removeCrcNetworkManagerConfig`. -/
def removeCrcNetworkManagerConfig (env : Env) (fs : FS) : Outcome :=
  removeNetworkManagerConfigFile env fs crcNetworkManagerConfigPath

/-- Embeds `checkSystemdServiceRunning`: query the unit's status, propagate
a query error, and fail unless the status is `Running`. -/
def checkSystemdServiceRunning (env : Env) (fs : FS) (service : String) : Outcome :=
  match env.svcStatus service with
  | .err e => { err := some e, fs := fs, trace := [Event.statusQuery service] }
  | .ok status =>
      if status = SdState.Running then
        { err := none, fs := fs, trace := [Event.statusQuery service] }
      else
        { err := some (service ++ " is not running"), fs := fs, trace := [Event.statusQuery service] }

/-- Embeds `checkSystemdNetworkdIsNotRunning`: invert
`checkSystemdServiceRunning`; any failure of the inner check (a non-running
status or a status-query error) becomes success. -/
def checkSystemdNetworkdIsNotRunning (env : Env) (fs : FS) : Outcome :=
  let o := checkSystemdServiceRunning env fs "systemd-networkd.service"
  match o.err with
  | none => { o with err := some "systemd-networkd.service is running" }
  | some _ => { o with err := none }

/-- Embeds `checkNetworkManagerIsRunning`. -/
def checkNetworkManagerIsRunning (env : Env) (fs : FS) : Outcome :=
  checkSystemdServiceRunning env fs "NetworkManager.service"

/-- Embeds `checkSystemdResolvedIsRunning`. -/
def checkSystemdResolvedIsRunning (env : Env) (fs : FS) : Outcome :=
  checkSystemdServiceRunning env fs "systemd-resolved.service"

/-- Embeds `checkCrcNetworkManagerDispatcherFile`. -/
def checkCrcNetworkManagerDispatcherFile (_env : Env) (fs : FS) : Outcome :=
  { err := fileContentMatches fs crcNetworkManagerDispatcherPath crcNetworkManagerDispatcherConfig,
    fs := fs, trace := [Event.contentCheck crcNetworkManagerDispatcherPath] }

/-- Embeds `fixCrcNetworkManagerDispatcherFile`: write the dispatcher
script with mode 0755 and reload NetworkManager. -/
def fixCrcNetworkManagerDispatcherFile (env : Env) (fs : FS) : Outcome :=
  fixNetworkManagerConfigFile env fs crcNetworkManagerDispatcherPath crcNetworkManagerDispatcherConfig 0o755

/-- Embeds `removeCrcNetworkManagerDispatcherFile`. -/
def removeCrcNetworkManagerDispatcherFile (env : Env) (fs : FS) : Outcome :=
  removeNetworkManagerConfigFile env fs crcNetworkManagerDispatcherPath

/-- Capability bit marking a check whose failure must not be auto-fixed.
Modelled from the spec: the `Flags` type of the preflight package is not
under `src/`; the spec calls it "a set of capability bits — at minimum
NoFix". -/
def NoFix : Nat := 1

/-- One preflight check.  Modelled from the spec: the `Check` struct of the
preflight package is not under `src/`; fields follow the registry literals
in the source file and the spec's data model (optional `fix`/`cleanup`,
capability `flags`, defaulting to zero). -/
structure Check where
  configKeySuffix : String
  checkDescription : String
  check : Env → FS → Outcome
  fixDescription : String := ""
  fix : Option (Env → FS → Outcome) := none
  cleanupDescription : String := ""
  cleanup : Option (Env → FS → Outcome) := none
  flags : Nat := 0

/-- Whether a check carries the `NoFix` capability bit. -/
def Check.hasNoFix (c : Check) : Bool := c.flags.testBit 0

/-- Embeds the `nmPreflightChecks` registry. -/
def nmPreflightChecks : List Check :=
  [ { configKeySuffix := "check-systemd-networkd-running",
      checkDescription := "Checking if systemd-networkd is running",
      check := checkSystemdNetworkdIsNotRunning,
      fixDescription := "network configuration with systemd-networkd is not supported",
      flags := NoFix },
    { configKeySuffix := "check-network-manager-installed",
      checkDescription := "Checking if NetworkManager is installed",
      check := checkNetworkManagerInstalled,
      fixDescription := "NetworkManager is required and must be installed manually",
      flags := NoFix },
    { configKeySuffix := "check-network-manager-running",
      checkDescription := "Checking if NetworkManager service is running",
      check := checkNetworkManagerIsRunning,
      fixDescription := "NetworkManager is required. Please make sure it is installed and running manually",
      flags := NoFix } ]

/-- Embeds the `dnsmasqPreflightChecks` registry. -/
def dnsmasqPreflightChecks : List Check :=
  [ { configKeySuffix := "check-network-manager-config",
      checkDescription := "Checking if /etc/NetworkManager/conf.d/crc-nm-dnsmasq.conf exists",
      check := checkCrcNetworkManagerConfig,
      fixDescription := "Writing Network Manager config for crc",
      fix := some fixCrcNetworkManagerConfig,
      cleanupDescription := "Removing /etc/NetworkManager/conf.d/crc-nm-dnsmasq.conf file",
      cleanup := some removeCrcNetworkManagerConfig },
    { configKeySuffix := "check-crc-dnsmasq-file",
      checkDescription := "Checking if /etc/NetworkManager/dnsmasq.d/crc.conf exists",
      check := checkCrcDnsmasqConfigFile,
      fixDescription := "Writing dnsmasq config for crc",
      fix := some fixCrcDnsmasqConfigFile,
      cleanupDescription := "Removing /etc/NetworkManager/dnsmasq.d/crc.conf file",
      cleanup := some removeCrcDnsmasqConfigFile } ]

/-- Embeds the `systemdResolvedPreflightChecks` registry. -/
def systemdResolvedPreflightChecks : List Check :=
  [ { configKeySuffix := "check-systemd-resolved-running",
      checkDescription := "Checking if the systemd-resolved service is running",
      check := checkSystemdResolvedIsRunning,
      fixDescription := "systemd-resolved is required on this distribution. Please make sure it is installed and running manually",
      flags := NoFix },
    { configKeySuffix := "check-crc-nm-dispatcher-file",
      checkDescription := "Checking if " ++ crcNetworkManagerDispatcherPath ++ " exists",
      check := checkCrcNetworkManagerDispatcherFile,
      fixDescription := "Writing NetworkManager dispatcher file for crc",
      fix := some fixCrcNetworkManagerDispatcherFile,
      cleanupDescription := "Removing " ++ crcNetworkManagerDispatcherPath ++ " file",
      cleanup := some removeCrcNetworkManagerDispatcherFile } ]

/-- Every check of the three registries, in registry order. -/
def allChecks : List Check :=
  nmPreflightChecks ++ dnsmasqPreflightChecks ++ systemdResolvedPreflightChecks

/-- Environment in which every external primitive succeeds. -/
def envOk : Env :=
  { writeRes := none, removeRes := none, reloadRes := none, nmcliFound := true,
    svcStatus := fun _ => SdStatusRes.ok SdState.Running }

/-- Environment in which the NetworkManager reload fails. -/
def envReloadFail : Env :=
  { writeRes := none, removeRes := none, reloadRes := some "exit status 1",
    nmcliFound := true, svcStatus := fun _ => SdStatusRes.ok SdState.Running }

/-- Environment in which `nmcli` is not on the search path and every other
primitive succeeds. -/
def envNoNmcli : Env :=
  { writeRes := none, removeRes := none, reloadRes := none, nmcliFound := false,
    svcStatus := fun _ => SdStatusRes.ok SdState.Running }

/-- Environment in which every status query fails. -/
def envStatusErr : Env :=
  { writeRes := none, removeRes := none, reloadRes := none, nmcliFound := true,
    svcStatus := fun _ => SdStatusRes.err "dbus connection failed" }

theorem FS.lookup_write_self (fs : FS) (p : Path) (c : Content) (m : FileMode) :
    FS.lookup (FS.write fs p c m) p = some ⟨c, m⟩ := by
  simp [FS.write, FS.lookup]

theorem FS.lookup_removeAll_self (fs : FS) (p : Path) :
    FS.lookup (FS.removeAll fs p) p = none := by
  induction fs with
  | nil => rfl
  | cons hd tl ih =>
      obtain ⟨q, e⟩ := hd
      by_cases h : q = p
      · simpa [FS.removeAll, h] using ih
      · simpa [FS.removeAll, FS.lookup, h] using ih

/-- Generic form of the detect-after-fix property: with the write and the
reload succeeding, `fixNetworkManagerConfigFile` returns nil and leaves the
exact content and mode at the path. -/
theorem fix_ok_writes (env : Env) (fs : FS) (path : Path) (content : Content)
    (perms : FileMode) (hw : env.writeRes = none) (hr : env.reloadRes = none) :
    (fixNetworkManagerConfigFile env fs path content perms).err = none ∧
      FS.lookup (fixNetworkManagerConfigFile env fs path content perms).fs path
        = some ⟨content, perms⟩ := by
  simp [fixNetworkManagerConfigFile, hw, hr, FS.lookup_write_self]

/-- Generic no-op form of undo when the target file is absent: nil error,
filesystem untouched, and no mutating primitive invoked. -/
theorem remove_noop_of_absent (env : Env) (fs : FS) (path : Path)
    (h : FS.lookup fs path = none) :
    (removeNetworkManagerConfigFile env fs path).err = none ∧
      (removeNetworkManagerConfigFile env fs path).fs = fs ∧
      ((removeNetworkManagerConfigFile env fs path).trace.all
        fun ev => !ev.isMutating) = true := by
  by_cases hn : env.nmcliFound
  · simp [removeNetworkManagerConfigFile, checkNetworkManagerInstalled, hn, h,
      Event.isMutating]
  · simp [removeNetworkManagerConfigFile, checkNetworkManagerInstalled, hn,
      Event.isMutating]

/-- C1: for every configuration-file check (dnsmasq config, NetworkManager
config, dispatcher script), if the privileged file write and the
NetworkManager reload both succeed, then the fix returns success, a
subsequent detect on the same check succeeds, and the exact expected byte
content (and mode) is present at the check's fixed path. -/
theorem c1_config_fix_then_detect (env : Env) (fs : FS)
    (hw : env.writeRes = none) (hr : env.reloadRes = none) :
    ((fixCrcDnsmasqConfigFile env fs).err = none
      ∧ (checkCrcDnsmasqConfigFile env (fixCrcDnsmasqConfigFile env fs).fs).err = none
      ∧ FS.lookup (fixCrcDnsmasqConfigFile env fs).fs crcDnsmasqConfigPath
          = some ⟨crcDnsmasqConfig, 0o644⟩)
  ∧ ((fixCrcNetworkManagerConfig env fs).err = none
      ∧ (checkCrcNetworkManagerConfig env (fixCrcNetworkManagerConfig env fs).fs).err = none
      ∧ FS.lookup (fixCrcNetworkManagerConfig env fs).fs crcNetworkManagerConfigPath
          = some ⟨crcNetworkManagerConfig, 0o644⟩)
  ∧ ((fixCrcNetworkManagerDispatcherFile env fs).err = none
      ∧ (checkCrcNetworkManagerDispatcherFile env
            (fixCrcNetworkManagerDispatcherFile env fs).fs).err = none
      ∧ FS.lookup (fixCrcNetworkManagerDispatcherFile env fs).fs crcNetworkManagerDispatcherPath
          = some ⟨crcNetworkManagerDispatcherConfig, 0o755⟩) := by
  refine ⟨⟨?_, ?_, ?_⟩, ⟨?_, ?_, ?_⟩, ⟨?_, ?_, ?_⟩⟩ <;>
    simp [fixCrcDnsmasqConfigFile, checkCrcDnsmasqConfigFile,
      fixCrcNetworkManagerConfig, checkCrcNetworkManagerConfig,
      fixCrcNetworkManagerDispatcherFile, checkCrcNetworkManagerDispatcherFile,
      fixNetworkManagerConfigFile, hw, hr, fileContentMatches, FS.lookup_write_self]

/-- Witness for C1 at the all-success environment and the empty filesystem. -/
theorem c1_config_fix_then_detect_witness :
    ((fixCrcDnsmasqConfigFile envOk []).err = none
      ∧ (checkCrcDnsmasqConfigFile envOk (fixCrcDnsmasqConfigFile envOk []).fs).err = none
      ∧ FS.lookup (fixCrcDnsmasqConfigFile envOk []).fs crcDnsmasqConfigPath
          = some ⟨crcDnsmasqConfig, 0o644⟩)
  ∧ ((fixCrcNetworkManagerConfig envOk []).err = none
      ∧ (checkCrcNetworkManagerConfig envOk (fixCrcNetworkManagerConfig envOk []).fs).err = none
      ∧ FS.lookup (fixCrcNetworkManagerConfig envOk []).fs crcNetworkManagerConfigPath
          = some ⟨crcNetworkManagerConfig, 0o644⟩)
  ∧ ((fixCrcNetworkManagerDispatcherFile envOk []).err = none
      ∧ (checkCrcNetworkManagerDispatcherFile envOk
            (fixCrcNetworkManagerDispatcherFile envOk []).fs).err = none
      ∧ FS.lookup (fixCrcNetworkManagerDispatcherFile envOk []).fs crcNetworkManagerDispatcherPath
          = some ⟨crcNetworkManagerDispatcherConfig, 0o755⟩) :=
  c1_config_fix_then_detect envOk [] rfl rfl

/-- C2: for every configuration-file check, if the privileged write
succeeds but the NetworkManager reload fails, the fix returns an error that
contains the reload failure message. -/
theorem c2_reload_failure_surfaced (env : Env) (fs : FS) (e : String)
    (hw : env.writeRes = none) (hr : env.reloadRes = some e) :
    (fixCrcDnsmasqConfigFile env fs).err = some ("Failed to restart NetworkManager: " ++ e)
  ∧ (fixCrcNetworkManagerConfig env fs).err = some ("Failed to restart NetworkManager: " ++ e)
  ∧ (fixCrcNetworkManagerDispatcherFile env fs).err
      = some ("Failed to restart NetworkManager: " ++ e) := by
  refine ⟨?_, ?_, ?_⟩ <;>
    simp [fixCrcDnsmasqConfigFile, fixCrcNetworkManagerConfig,
      fixCrcNetworkManagerDispatcherFile, fixNetworkManagerConfigFile, hw, hr]

/-- Witness for C2 at an environment whose reload fails with a concrete
message. -/
theorem c2_reload_failure_surfaced_witness :
    (fixCrcDnsmasqConfigFile envReloadFail []).err
      = some ("Failed to restart NetworkManager: " ++ "exit status 1")
  ∧ (fixCrcNetworkManagerConfig envReloadFail []).err
      = some ("Failed to restart NetworkManager: " ++ "exit status 1")
  ∧ (fixCrcNetworkManagerDispatcherFile envReloadFail []).err
      = some ("Failed to restart NetworkManager: " ++ "exit status 1") :=
  c2_reload_failure_surfaced envReloadFail [] "exit status 1" rfl rfl

/-- C3: across the three registries, a check carries the `NoFix` flag
exactly when its fix operation is absent. -/
theorem c3_nofix_iff_fix_absent :
    (allChecks.all fun c => c.hasNoFix == c.fix.isNone) = true := by decide

/-- C4: for every check with remediation, with all privileged primitives
succeeding, detect passes after the first fix and a second fix on the
resulting state also returns success. -/
theorem c4_remediate_twice (env : Env) (fs : FS)
    (hw : env.writeRes = none) (hr : env.reloadRes = none) :
    ((checkCrcDnsmasqConfigFile env (fixCrcDnsmasqConfigFile env fs).fs).err = none
      ∧ (fixCrcDnsmasqConfigFile env (fixCrcDnsmasqConfigFile env fs).fs).err = none)
  ∧ ((checkCrcNetworkManagerConfig env (fixCrcNetworkManagerConfig env fs).fs).err = none
      ∧ (fixCrcNetworkManagerConfig env (fixCrcNetworkManagerConfig env fs).fs).err = none)
  ∧ ((checkCrcNetworkManagerDispatcherFile env
        (fixCrcNetworkManagerDispatcherFile env fs).fs).err = none
      ∧ (fixCrcNetworkManagerDispatcherFile env
          (fixCrcNetworkManagerDispatcherFile env fs).fs).err = none) := by
  refine ⟨⟨?_, ?_⟩, ⟨?_, ?_⟩, ⟨?_, ?_⟩⟩ <;>
    simp [fixCrcDnsmasqConfigFile, checkCrcDnsmasqConfigFile,
      fixCrcNetworkManagerConfig, checkCrcNetworkManagerConfig,
      fixCrcNetworkManagerDispatcherFile, checkCrcNetworkManagerDispatcherFile,
      fixNetworkManagerConfigFile, hw, hr, fileContentMatches, FS.lookup_write_self]

/-- Witness for C4 at the all-success environment and the empty filesystem. -/
theorem c4_remediate_twice_witness :
    ((checkCrcDnsmasqConfigFile envOk (fixCrcDnsmasqConfigFile envOk []).fs).err = none
      ∧ (fixCrcDnsmasqConfigFile envOk (fixCrcDnsmasqConfigFile envOk []).fs).err = none)
  ∧ ((checkCrcNetworkManagerConfig envOk (fixCrcNetworkManagerConfig envOk []).fs).err = none
      ∧ (fixCrcNetworkManagerConfig envOk (fixCrcNetworkManagerConfig envOk []).fs).err = none)
  ∧ ((checkCrcNetworkManagerDispatcherFile envOk
        (fixCrcNetworkManagerDispatcherFile envOk []).fs).err = none
      ∧ (fixCrcNetworkManagerDispatcherFile envOk
          (fixCrcNetworkManagerDispatcherFile envOk []).fs).err = none) :=
  c4_remediate_twice envOk [] rfl rfl

/-- C5 counterexample: remediate succeeds with every primitive reporting
success, then undo is run in an environment where `nmcli` is no longer on
the search path; undo returns success, yet the dnsmasq configuration file
is still present at its path with the written content. -/
theorem c5_counterexample :
    (fixCrcDnsmasqConfigFile envOk []).err = none
  ∧ (removeCrcDnsmasqConfigFile envNoNmcli (fixCrcDnsmasqConfigFile envOk []).fs).err = none
  ∧ FS.lookup (removeCrcDnsmasqConfigFile envNoNmcli (fixCrcDnsmasqConfigFile envOk []).fs).fs
      crcDnsmasqConfigPath = some ⟨crcDnsmasqConfig, 0o644⟩ :=
  ⟨rfl, rfl, rfl⟩

/-- C5 amended: for every configuration-file check, after a successful
remediate followed by a successful undo, provided `nmcli` is resolvable on
the search path when undo runs, the configuration file no longer exists at
the check's fixed path. -/
theorem c5_undo_reverses_fix (env1 env2 : Env) (fs : FS)
    (hw : env1.writeRes = none) (hr1 : env1.reloadRes = none)
    (hn : env2.nmcliFound = true) (hrm : env2.removeRes = none)
    (hr2 : env2.reloadRes = none) :
    ((removeCrcDnsmasqConfigFile env2 (fixCrcDnsmasqConfigFile env1 fs).fs).err = none
      ∧ FS.lookup (removeCrcDnsmasqConfigFile env2 (fixCrcDnsmasqConfigFile env1 fs).fs).fs
          crcDnsmasqConfigPath = none)
  ∧ ((removeCrcNetworkManagerConfig env2 (fixCrcNetworkManagerConfig env1 fs).fs).err = none
      ∧ FS.lookup (removeCrcNetworkManagerConfig env2
            (fixCrcNetworkManagerConfig env1 fs).fs).fs crcNetworkManagerConfigPath = none)
  ∧ ((removeCrcNetworkManagerDispatcherFile env2
        (fixCrcNetworkManagerDispatcherFile env1 fs).fs).err = none
      ∧ FS.lookup (removeCrcNetworkManagerDispatcherFile env2
            (fixCrcNetworkManagerDispatcherFile env1 fs).fs).fs
          crcNetworkManagerDispatcherPath = none) := by
  refine ⟨⟨?_, ?_⟩, ⟨?_, ?_⟩, ⟨?_, ?_⟩⟩ <;>
    simp [removeCrcDnsmasqConfigFile, fixCrcDnsmasqConfigFile,
      removeCrcNetworkManagerConfig, fixCrcNetworkManagerConfig,
      removeCrcNetworkManagerDispatcherFile, fixCrcNetworkManagerDispatcherFile,
      removeNetworkManagerConfigFile, checkNetworkManagerInstalled,
      fixNetworkManagerConfigFile, hw, hr1, hn, hrm, hr2,
      FS.lookup_write_self, FS.lookup_removeAll_self]

/-- Witness for the amended C5 at all-success environments and the empty
filesystem. -/
theorem c5_undo_reverses_fix_witness :
    ((removeCrcDnsmasqConfigFile envOk (fixCrcDnsmasqConfigFile envOk []).fs).err = none
      ∧ FS.lookup (removeCrcDnsmasqConfigFile envOk (fixCrcDnsmasqConfigFile envOk []).fs).fs
          crcDnsmasqConfigPath = none)
  ∧ ((removeCrcNetworkManagerConfig envOk (fixCrcNetworkManagerConfig envOk []).fs).err = none
      ∧ FS.lookup (removeCrcNetworkManagerConfig envOk
            (fixCrcNetworkManagerConfig envOk []).fs).fs crcNetworkManagerConfigPath = none)
  ∧ ((removeCrcNetworkManagerDispatcherFile envOk
        (fixCrcNetworkManagerDispatcherFile envOk []).fs).err = none
      ∧ FS.lookup (removeCrcNetworkManagerDispatcherFile envOk
            (fixCrcNetworkManagerDispatcherFile envOk []).fs).fs
          crcNetworkManagerDispatcherPath = none) :=
  c5_undo_reverses_fix envOk envOk [] rfl rfl rfl rfl rfl

/-- C6: when the precondition check fails (`nmcli` not resolvable), undo
returns success immediately, with the filesystem untouched and neither the
file-remove primitive nor the reload primitive invoked. -/
theorem c6_undo_short_circuit (env : Env) (fs : FS) (path : Path)
    (h : env.nmcliFound = false) :
    (removeNetworkManagerConfigFile env fs path).err = none
  ∧ (removeNetworkManagerConfigFile env fs path).fs = fs
  ∧ (removeNetworkManagerConfigFile env fs path).trace = [Event.lookPath "nmcli"]
  ∧ (∀ p, Event.removeFile p ∉ (removeNetworkManagerConfigFile env fs path).trace)
  ∧ (∀ s, Event.reload s ∉ (removeNetworkManagerConfigFile env fs path).trace) := by
  simp [removeNetworkManagerConfigFile, checkNetworkManagerInstalled, h]

/-- Witness for C6 at the environment without `nmcli`. -/
theorem c6_undo_short_circuit_witness :
    (removeNetworkManagerConfigFile envNoNmcli [] crcDnsmasqConfigPath).err = none
  ∧ (removeNetworkManagerConfigFile envNoNmcli [] crcDnsmasqConfigPath).fs = []
  ∧ (removeNetworkManagerConfigFile envNoNmcli [] crcDnsmasqConfigPath).trace
      = [Event.lookPath "nmcli"]
  ∧ (∀ p, Event.removeFile p ∉ (removeNetworkManagerConfigFile envNoNmcli []
        crcDnsmasqConfigPath).trace)
  ∧ (∀ s, Event.reload s ∉ (removeNetworkManagerConfigFile envNoNmcli []
        crcDnsmasqConfigPath).trace) :=
  c6_undo_short_circuit envNoNmcli [] crcDnsmasqConfigPath rfl

/-- C7: on a fresh system where none of the configuration files was ever
written, each cleanup returns success, leaves the filesystem unchanged,
and invokes no mutating primitive (no write, remove, or reload). -/
theorem c7_undo_fresh_system (env : Env) (fs : FS)
    (h1 : FS.lookup fs crcNetworkManagerConfigPath = none)
    (h2 : FS.lookup fs crcDnsmasqConfigPath = none)
    (h3 : FS.lookup fs crcNetworkManagerDispatcherPath = none) :
    ((removeCrcNetworkManagerConfig env fs).err = none
      ∧ (removeCrcNetworkManagerConfig env fs).fs = fs
      ∧ ((removeCrcNetworkManagerConfig env fs).trace.all fun ev => !ev.isMutating) = true)
  ∧ ((removeCrcDnsmasqConfigFile env fs).err = none
      ∧ (removeCrcDnsmasqConfigFile env fs).fs = fs
      ∧ ((removeCrcDnsmasqConfigFile env fs).trace.all fun ev => !ev.isMutating) = true)
  ∧ ((removeCrcNetworkManagerDispatcherFile env fs).err = none
      ∧ (removeCrcNetworkManagerDispatcherFile env fs).fs = fs
      ∧ ((removeCrcNetworkManagerDispatcherFile env fs).trace.all
          fun ev => !ev.isMutating) = true) :=
  ⟨remove_noop_of_absent env fs crcNetworkManagerConfigPath h1,
   remove_noop_of_absent env fs crcDnsmasqConfigPath h2,
   remove_noop_of_absent env fs crcNetworkManagerDispatcherPath h3⟩

/-- Witness for C7 at the empty filesystem. -/
theorem c7_undo_fresh_system_witness :
    ((removeCrcNetworkManagerConfig envOk []).err = none
      ∧ (removeCrcNetworkManagerConfig envOk []).fs = []
      ∧ ((removeCrcNetworkManagerConfig envOk []).trace.all fun ev => !ev.isMutating) = true)
  ∧ ((removeCrcDnsmasqConfigFile envOk []).err = none
      ∧ (removeCrcDnsmasqConfigFile envOk []).fs = []
      ∧ ((removeCrcDnsmasqConfigFile envOk []).trace.all fun ev => !ev.isMutating) = true)
  ∧ ((removeCrcNetworkManagerDispatcherFile envOk []).err = none
      ∧ (removeCrcNetworkManagerDispatcherFile envOk []).fs = []
      ∧ ((removeCrcNetworkManagerDispatcherFile envOk []).trace.all
          fun ev => !ev.isMutating) = true) :=
  c7_undo_fresh_system envOk [] rfl rfl rfl

/-- C8: each service-state detect succeeds exactly when the status client
reports the expected status: the NetworkManager and systemd-resolved checks
succeed iff the query reports `Running`, and the systemd-networkd check
succeeds iff the query does not report `Running`. -/
theorem c8_service_state_detect (env : Env) (fs : FS) :
    ((checkNetworkManagerIsRunning env fs).err = none
        ↔ env.svcStatus "NetworkManager.service" = SdStatusRes.ok SdState.Running)
  ∧ ((checkSystemdResolvedIsRunning env fs).err = none
        ↔ env.svcStatus "systemd-resolved.service" = SdStatusRes.ok SdState.Running)
  ∧ ((checkSystemdNetworkdIsNotRunning env fs).err = none
        ↔ ¬ env.svcStatus "systemd-networkd.service" = SdStatusRes.ok SdState.Running) := by
  refine ⟨?_, ?_, ?_⟩
  · cases h : env.svcStatus "NetworkManager.service" with
    | ok s => cases s <;> simp [checkNetworkManagerIsRunning, checkSystemdServiceRunning, h]
    | err e => simp [checkNetworkManagerIsRunning, checkSystemdServiceRunning, h]
  · cases h : env.svcStatus "systemd-resolved.service" with
    | ok s => cases s <;> simp [checkSystemdResolvedIsRunning, checkSystemdServiceRunning, h]
    | err e => simp [checkSystemdResolvedIsRunning, checkSystemdServiceRunning, h]
  · cases h : env.svcStatus "systemd-networkd.service" with
    | ok s =>
        cases s <;>
          simp [checkSystemdNetworkdIsNotRunning, checkSystemdServiceRunning, h]
    | err e =>
        simp [checkSystemdNetworkdIsNotRunning, checkSystemdServiceRunning, h]

/-- C9 counterexample: the status query for systemd-networkd returns an
error (a collaborator failure outside the undo-precondition case), yet
`checkSystemdNetworkdIsNotRunning` returns success, swallowing it. -/
theorem c9_counterexample :
    envStatusErr.svcStatus "systemd-networkd.service"
      = SdStatusRes.err "dbus connection failed"
  ∧ (checkSystemdNetworkdIsNotRunning envStatusErr []).err = none :=
  ⟨rfl, rfl⟩

/-- C9 amended: every collaborator failure is propagated, except the
precondition-absent undo no-op and `checkSystemdNetworkdIsNotRunning`,
which converts any failure of the inner running check (including a
status-query error) into success.  Each operation's success is
characterized exactly: the fix fails iff the write or the reload fails;
the undo fails iff `nmcli` is present, the file exists, and the remove or
the reload fails; the running check fails iff the query does not report
`Running`; the install check fails iff the path lookup fails; each
content detect returns the comparison result unchanged. -/
theorem c9_error_propagation (env : Env) (fs : FS) (s : String)
    (path : Path) (content : Content) (perms : FileMode) :
    ((fixNetworkManagerConfigFile env fs path content perms).err = none
        ↔ (env.writeRes = none ∧ env.reloadRes = none))
  ∧ ((removeNetworkManagerConfigFile env fs path).err = none
        ↔ (env.nmcliFound = false ∨ FS.lookup fs path = none
            ∨ (env.removeRes = none ∧ env.reloadRes = none)))
  ∧ ((checkSystemdServiceRunning env fs s).err = none
        ↔ env.svcStatus s = SdStatusRes.ok SdState.Running)
  ∧ ((checkNetworkManagerInstalled env fs).err = none ↔ env.nmcliFound = true)
  ∧ ((checkSystemdNetworkdIsNotRunning env fs).err = none
        ↔ ¬ env.svcStatus "systemd-networkd.service" = SdStatusRes.ok SdState.Running)
  ∧ ((checkCrcDnsmasqConfigFile env fs).err
        = fileContentMatches fs crcDnsmasqConfigPath crcDnsmasqConfig)
  ∧ ((checkCrcNetworkManagerConfig env fs).err
        = fileContentMatches fs crcNetworkManagerConfigPath crcNetworkManagerConfig)
  ∧ ((checkCrcNetworkManagerDispatcherFile env fs).err
        = fileContentMatches fs crcNetworkManagerDispatcherPath
            crcNetworkManagerDispatcherConfig) := by
  refine ⟨?_, ?_, ?_, ?_, ?_, rfl, rfl, rfl⟩
  · cases hw : env.writeRes <;> cases hr : env.reloadRes <;>
      simp [fixNetworkManagerConfigFile, hw, hr]
  · cases hn : env.nmcliFound
    · simp [removeNetworkManagerConfigFile, checkNetworkManagerInstalled, hn]
    · cases hf : FS.lookup fs path
      · simp [removeNetworkManagerConfigFile, checkNetworkManagerInstalled, hn, hf]
      · cases hrm : env.removeRes <;> cases hr : env.reloadRes <;>
          simp [removeNetworkManagerConfigFile, checkNetworkManagerInstalled, hn, hf, hrm, hr]
  · cases hs : env.svcStatus s with
    | ok st => cases st <;> simp [checkSystemdServiceRunning, hs]
    | err e => simp [checkSystemdServiceRunning, hs]
  · cases hn : env.nmcliFound <;> simp [checkNetworkManagerInstalled, hn]
  · cases hs : env.svcStatus "systemd-networkd.service" with
    | ok st =>
        cases st <;>
          simp [checkSystemdNetworkdIsNotRunning, checkSystemdServiceRunning, hs]
    | err e =>
        simp [checkSystemdNetworkdIsNotRunning, checkSystemdServiceRunning, hs]

/-- C10: when the precondition holds (`nmcli` resolvable) but the target
file does not exist, undo returns success after only the path lookup and
the stat, invoking neither the remove primitive nor a reload. -/
theorem c10_no_reload_when_absent (env : Env) (fs : FS) (path : Path)
    (hn : env.nmcliFound = true) (h : FS.lookup fs path = none) :
    (removeNetworkManagerConfigFile env fs path).err = none
  ∧ (removeNetworkManagerConfigFile env fs path).trace
      = [Event.lookPath "nmcli", Event.stat path]
  ∧ (∀ p, Event.removeFile p ∉ (removeNetworkManagerConfigFile env fs path).trace)
  ∧ (∀ s, Event.reload s ∉ (removeNetworkManagerConfigFile env fs path).trace) := by
  simp [removeNetworkManagerConfigFile, checkNetworkManagerInstalled, hn, h]

/-- Witness for C10 at the all-success environment and the empty
filesystem. -/
theorem c10_no_reload_when_absent_witness :
    (removeNetworkManagerConfigFile envOk [] crcDnsmasqConfigPath).err = none
  ∧ (removeNetworkManagerConfigFile envOk [] crcDnsmasqConfigPath).trace
      = [Event.lookPath "nmcli", Event.stat crcDnsmasqConfigPath]
  ∧ (∀ p, Event.removeFile p ∉ (removeNetworkManagerConfigFile envOk []
        crcDnsmasqConfigPath).trace)
  ∧ (∀ s, Event.reload s ∉ (removeNetworkManagerConfigFile envOk []
        crcDnsmasqConfigPath).trace) :=
  c10_no_reload_when_absent envOk [] crcDnsmasqConfigPath rfl rfl

end Crc
